import Mathlib

/- Verification of the weather / trip-planning tool-server system against its
specification.  The development shallowly embeds the relevant parts of the
program: the pure planning engine of the travel server (weather
classification, restaurant filtering, itinerary synthesis), the dispatch
logic of the weather tool server (credential check, argument coercion,
request construction), the tool-result renderer, and the transcript walk
that builds the persisted turn record.  Python strings are modelled as
`String` or `List Char` (one element per code point), temperatures as `ℚ`,
and the stateful parts (outbound HTTP, streamed output, appended history)
as explicit values describing the action the code takes. -/

/- ---------------------------------------------------------------------
Planning engine (travel_server.py)
--------------------------------------------------------------------- -/

/-- Lower-cases a character sequence, as Python `str.lower()` does on the
ASCII inputs used throughout the reference data and tests. -/
def toLowerList (s : List Char) : List Char := s.map Char.toLower

/-- Substring containment on character sequences, modelling the Python
expression `needle in hay` for strings. -/
def containsSub (needle : List Char) : List Char → Bool
  | [] => needle.isEmpty
  | c :: rest => needle.isPrefixOf (c :: rest) || containsSub needle rest

/-- Case-insensitive keyword test: `kw in weather_condition.lower()` in
`classify_weather` (travel_server.py lines 143-149). -/
def hasKw (cond : List Char) (kw : String) : Bool :=
  containsSub kw.toList (toLowerList cond)

/-- Embedding of `classify_weather` (travel_server.py lines 141-158):
rain/snow/clear keyword checks (English and Italian, case-insensitive) take
precedence, the clear branch splits into hot/sunny at 28°C, and the final
fallback is banded by temperature only (cold / mild / partly_cloudy). -/
def classify_weather (cond : List Char) (temp : ℚ) : String :=
  if hasKw cond "rain" || hasKw cond "pioggia" then "rain"
  else if hasKw cond "snow" || hasKw cond "neve" then "snow"
  else if hasKw cond "sunny" || hasKw cond "clear" || hasKw cond "sereno" then
    if temp > 28 then "hot" else "sunny"
  else if temp < 5 then "cold"
  else if temp < 18 then "mild"
  else "partly_cloudy"

/-- Entry of the static restaurant table (travel_server.py lines 125-138).
The Python dict fields name/type/price/specialty; `type` is spelt `rtype`
here because `type` is a Lean keyword. -/
structure Restaurant where
  name : String
  rtype : String
  price : String
  specialty : String
deriving DecidableEq

/-- Restaurants of the "Milano" key of `RESTAURANTS_DB`. -/
def milanoRestaurants : List Restaurant :=
  [⟨"Trattoria Milanese", "tradizionale", "€€", "Cucina milanese"⟩,
   ⟨"Luini", "street_food", "€", "Panzerotti"⟩,
   ⟨"Eataly Smeraldo", "food_hall", "€€", "Prodotti italiani"⟩]

/-- Restaurants of the "Roma" key of `RESTAURANTS_DB`. -/
def romaRestaurants : List Restaurant :=
  [⟨"Roscioli", "bistrot", "€€€", "Cucina romana"⟩,
   ⟨"Trapizzino", "street_food", "€", "Trapizzini"⟩]

/-- Restaurants of the "default" key of `RESTAURANTS_DB`. -/
def defaultRestaurants : List Restaurant :=
  [⟨"Ristorante Locale", "tradizionale", "€€", "Cucina locale"⟩]

/-- The `RESTAURANTS_DB` dict of travel_server.py lines 125-138, as an
association list over its three keys. -/
def RESTAURANTS_DB : List (String × List Restaurant) :=
  [("Milano", milanoRestaurants), ("Roma", romaRestaurants),
   ("default", defaultRestaurants)]

/-- Embedding of `RESTAURANTS_DB.get(location, RESTAURANTS_DB["default"])`
(travel_server.py line 350): dictionary lookup with the default list as the
fallback value. -/
def restaurants_for (location : String) : List Restaurant :=
  match RESTAURANTS_DB.lookup location with
  | some l => l
  | none => (RESTAURANTS_DB.lookup "default").getD []

/-- Embedding of the `suggest_restaurants` branch of `call_tool`
(travel_server.py lines 343-365): look the location up, keep entries whose
price equals the budget or — unconditionally — when the requested budget is
"€€", and return the first three. -/
def suggest_restaurants (location budget : String) : List Restaurant :=
  ((restaurants_for location).filter
    (fun r => r.price == budget || budget == "€€")).take 3

/-- The fixed time grid of the `create_itinerary` branch
(travel_server.py line 377). -/
def itineraryTimes : List String := ["09:00", "11:00", "13:00", "15:00", "17:00", "19:00"]

/-- Embedding of the timeline loop of the `create_itinerary` branch
(travel_server.py lines 381-384): for the i-th activity place an activity
entry at slot 2i, and a restaurant entry at slot 2i+1 exactly when
restaurant index i exists.  The caller passes `activities.take 3`, so the
grid indices stay in range and the `getD` defaults are never taken. -/
def buildTimeline : Nat → List String → List String → List (String × String × String)
  | _, [], _ => []
  | i, a :: as, rs =>
    let act := (itineraryTimes.getD (2 * i) "", a, "activity")
    if i < rs.length then
      act :: (itineraryTimes.getD (2 * i + 1) "", rs.getD i "", "restaurant") ::
        buildTimeline (i + 1) as rs
    else
      act :: buildTimeline (i + 1) as rs

/-- The timeline produced by `create_itinerary` for given activity and
restaurant lists: the loop runs over `activities[:3]` starting at index 0. -/
def itineraryTimeline (activities restaurants : List String) :
    List (String × String × String) :=
  buildTimeline 0 (activities.take 3) restaurants

/-- The three fixed travel tips appended after the timeline
(travel_server.py lines 390-393); the renderer prefixes each with "- ". -/
def itineraryTips : List String :=
  ["Porta sempre un ombrello pieghevole",
   "Prenota i ristoranti in anticipo",
   "Usa i mezzi pubblici o cammina"]

/-- Number of restaurant entries of a timeline. -/
def restaurantEntryCount (tl : List (String × String × String)) : Nat :=
  (tl.filter (fun e => e.2.2 == "restaurant")).length

/- ---------------------------------------------------------------------
Weather tool server dispatch (server.py)
--------------------------------------------------------------------- -/

/-- Digit-string value, helper for `parseIntChars`. -/
def digitsVal (l : List Char) : Option Nat :=
  if l ≠ [] ∧ l.all Char.isDigit then
    some (l.foldl (fun a c => 10 * a + (c.toNat - 48)) 0)
  else none

/-- Parses an optionally signed decimal numeral, modelling Python `int(s)`
on the plain numeric literals exchanged over the tool channel (Python
additionally strips whitespace and allows digit-group underscores; no such
input occurs here). -/
def parseIntChars : List Char → Option Int
  | [] => none
  | '-' :: rest => (digitsVal rest).map (fun n => -(n : Int))
  | '+' :: rest => (digitsVal rest).map (fun n => (n : Int))
  | l => (digitsVal l).map (fun n => (n : Int))

/-- String front-end of `parseIntChars`. -/
def parseInt (s : String) : Option Int := parseIntChars s.toList

/-- A `days` argument as received over the wire: the declared schema admits
both an integer and a string-encoded integer (server.py line 99). -/
inductive DaysArg where
  | int (n : Int)
  | str (s : String)
deriving DecidableEq

/-- Argument bag of a weather-tool call, restricted to the fields the
dispatch logic inspects before any request is issued.  A `none` field
models an absent dictionary key. -/
structure WeatherArgs where
  q : Option String := none
  days : Option DaysArg := none
  dt : Option String := none
deriving DecidableEq

/-- What one invocation of the weather server `call_tool` does before (or
instead of) awaiting the network: return the credential error, return an
exception-derived error payload, issue one HTTP GET against an endpoint
(for `forecast`, carrying the coerced `days` value), or return the
unknown-tool payload. -/
inductive CallAction where
  | credentialError (msg : String)
  | errorPayload (msg : String)
  | httpGet (endpoint : String) (days : Option Int)
  | unknownTool (msg : String)
deriving DecidableEq

/-- The credential-missing payload of server.py lines 196-202. -/
def credentialMissingMsg : String :=
  "Errore: WEATHERAPI_KEY non configurata. Imposta la variabile d\x27ambiente con la tua API key."

/-- Payload produced when a required argument key is absent: the handler
raises `KeyError`, caught at line 370 as `"Errore: " + str(e)`, and
`str(KeyError(k))` is the quoted key. -/
def keyErrorMsg (k : String) : String := "Errore: \x27" ++ k ++ "\x27"

/-- Payload produced when `int(days)` raises `ValueError` on a non-numeric
string, caught at line 370. -/
def coercionErrorMsg (s : String) : String :=
  "Errore: invalid literal for int() with base 10: \x27" ++ s ++ "\x27"

/-- The tool names registered by `list_tools` (server.py lines 55-188). -/
def weatherToolNames : List String :=
  ["get_current_weather", "get_forecast", "get_history", "search_location", "get_astronomy"]

/-- Declared lower bound of the `days` schema (server.py line 101). -/
def forecastDaysMin : Int := 1

/-- Declared upper bound of the `days` schema (server.py line 102). -/
def forecastDaysMax : Int := 14

/-- Embedding of `call_tool` (server.py lines 191-371) up to the point
where a request leaves the process: the empty-credential check comes first
(line 195, `if not API_KEY`), then dispatch on the tool name.  Each handler
reads its required arguments (an absent key raises `KeyError`, surfaced as
an error payload by the `except` clause); `get_forecast` first coerces a
string-valued `days` with `int(...)` (lines 240-242, default 3) and then
builds and issues the request with the coerced value — the code performs no
range check against the declared 1-14 bounds.  Unknown names reach the
final `else` (lines 357-358). -/
def weatherCallTool (apiKey name : String) (args : WeatherArgs) : CallAction :=
  if apiKey = "" then .credentialError credentialMissingMsg
  else if name = "get_current_weather" then
    match args.q with
    | none => .errorPayload (keyErrorMsg "q")
    | some _ => .httpGet "current" none
  else if name = "get_forecast" then
    match args.days.getD (.int 3) with
    | .int n =>
      match args.q with
      | none => .errorPayload (keyErrorMsg "q")
      | some _ => .httpGet "forecast" (some n)
    | .str s =>
      match parseInt s with
      | none => .errorPayload (coercionErrorMsg s)
      | some n =>
        match args.q with
        | none => .errorPayload (keyErrorMsg "q")
        | some _ => .httpGet "forecast" (some n)
  else if name = "get_history" then
    match args.q with
    | none => .errorPayload (keyErrorMsg "q")
    | some _ =>
      match args.dt with
      | none => .errorPayload (keyErrorMsg "dt")
      | some _ => .httpGet "history" none
  else if name = "search_location" then
    match args.q with
    | none => .errorPayload (keyErrorMsg "q")
    | some _ => .httpGet "search" none
  else if name = "get_astronomy" then
    match args.q with
    | none => .errorPayload (keyErrorMsg "q")
    | some _ => .httpGet "astronomy" none
  else .unknownTool ("Strumento sconosciuto: " ++ name)

/-- The key the server runs with, from the environment:
`os.getenv("WEATHERAPI_KEY", "")` (server.py line 34), so a missing
variable and an explicitly empty one both yield the empty string. -/
def apiKeyOf (env : Option String) : String := env.getD ""

/- ---------------------------------------------------------------------
Response renderer and transcript walk (app.py)
--------------------------------------------------------------------- -/

/-- What `stream_tool_response` emits for one tool result: the character
sequence streamed inline (full payload or truncated preview) and, when the
payload is long, the name and content of the out-of-band `cl.Text`
artifact. -/
structure RenderedToolResponse where
  inline : List Char
  artifactName : Option (List Char)
  artifact : Option (List Char)
deriving DecidableEq

/-- Embedding of `stream_tool_response` (app.py lines 207-232): a payload
longer than 200 characters is shown as its first 200 characters plus "..."
with the full payload attached as a `tool_response_<tool>` artifact; a
payload of at most 200 characters is streamed inline in full with no
artifact. -/
def stream_tool_response (toolName response : List Char) : RenderedToolResponse :=
  if 200 < response.length then
    { inline := response.take 200 ++ ("...".toList),
      artifactName := some ("tool_response_".toList ++ toolName),
      artifact := some response }
  else
    { inline := response, artifactName := none, artifact := none }

/-- One entry of an `AIMessage.tool_calls` list; the walk reads
`tool_call.get("name", "unknown")` (app.py line 286). -/
structure AgentToolCall where
  name : Option String
deriving DecidableEq

/-- One transcript entry of `response["messages"]`, tagged the way the
walk distinguishes them by `type(...).__name__`: `HumanMessage`,
`AIMessage` (content plus tool-call list), `ToolMessage`. -/
inductive TranscriptMsg where
  | human (content : String)
  | ai (content : String) (tool_calls : List AgentToolCall)
  | tool (name content : String)
deriving DecidableEq

/-- One iteration of the transcript walk (app.py lines 280-315) acting on
the accumulator (tools_used so far, final_response so far): an `AIMessage`
with a non-empty tool-call list appends every call name; an `AIMessage`
with no tool calls and truthy content overwrites the final response;
`ToolMessage` and `HumanMessage` entries leave the accumulator unchanged
(they only feed the rendered trace). -/
def walkStep (acc : List String × String) : TranscriptMsg → List String × String
  | .ai content tcs =>
    match tcs with
    | [] => if content ≠ "" then (acc.1, content) else acc
    | _ :: _ => (acc.1 ++ tcs.map (fun tc => tc.name.getD "unknown"), acc.2)
  | .tool _ _ => acc
  | .human _ => acc

/-- The full transcript walk: fold `walkStep` from an empty tool list and
empty final response (app.py lines 261, 278-315). -/
def walkTranscript (msgs : List TranscriptMsg) : List String × String :=
  msgs.foldl walkStep ([], "")

/-- The persisted turn record appended to `conversation_history`
(app.py lines 331-338). -/
structure Turn where
  timestamp : String
  user : String
  assistant : String
  tools_used : List String
deriving DecidableEq

/-- Builds the turn record for one user message from the transcript, as
app.py lines 332-337 do from the walk results. -/
def mkTurn (timestamp user : String) (msgs : List TranscriptMsg) : Turn :=
  { timestamp := timestamp, user := user,
    assistant := (walkTranscript msgs).2, tools_used := (walkTranscript msgs).1 }

/-- Append-only history update (app.py lines 331-338). -/
def appendTurn (history : List Turn) (t : Turn) : List Turn := history ++ [t]

/- ---------------------------------------------------------------------
Theorems
--------------------------------------------------------------------- -/

/-- C1, counterexample: the claim as stated is false — a keyword-free
condition such as "Overcast" at temperature 35 classifies as
"partly_cloudy", not "hot": the temperature-banded fallback of
`classify_weather` has no hot band. -/
theorem classify_weather_fallback_counterexample :
    classify_weather ("Overcast".toList) 35 = "partly_cloudy" ∧
    classify_weather ("Overcast".toList) 35 ≠ "hot" := by decide

/-- C1, amended: for every condition text containing none of the
rain/snow/clear keywords (English or Italian), `classify_weather` returns
the temperature-banded fallback "cold" below 5, "mild" below 18, and
"partly_cloudy" otherwise — there is no "hot" band in the fallback, "hot"
arises only in the clear/sunny branch. -/
theorem classify_weather_fallback (cond : List Char) (temp : ℚ)
    (h1 : hasKw cond "rain" = false) (h2 : hasKw cond "pioggia" = false)
    (h3 : hasKw cond "snow" = false) (h4 : hasKw cond "neve" = false)
    (h5 : hasKw cond "sunny" = false) (h6 : hasKw cond "clear" = false)
    (h7 : hasKw cond "sereno" = false) :
    classify_weather cond temp =
      if temp < 5 then "cold" else if temp < 18 then "mild" else "partly_cloudy" := by
  simp [classify_weather, h1, h2, h3, h4, h5, h6, h7]

/-- Witness for `classify_weather_fallback` at the keyword-free condition
"Overcast" and temperature 35. -/
theorem classify_weather_fallback_witness :
    classify_weather ("Overcast".toList) 35 = "partly_cloudy" := by
  rw [classify_weather_fallback ("Overcast".toList) 35 rfl rfl rfl rfl rfl rfl rfl]
  norm_num

/-- C2, counterexample: the claim as stated is false — with a credential
present, `days = "20"` (outside the declared 1-14 range) is coerced and
then forwarded in an outbound HTTP request to the forecast endpoint; no
error payload is produced and the request is issued. -/
theorem get_forecast_range_counterexample :
    weatherCallTool "k" "get_forecast"
        { q := some "Rome", days := some (.str "20") } =
      .httpGet "forecast" (some 20) ∧
    ¬(20 ≤ forecastDaysMax) := by decide

/-- C2, amended: for the `get_forecast` tool, a string-encoded `days`
argument is coerced with `int(...)` before the request is built, and the
coerced value is used unvalidated: whatever integer it denotes — in range
or not — is carried by the outbound HTTP request, while a non-numeric
string yields an error payload (the caught `ValueError`), not a process
abort. -/
theorem get_forecast_days_coercion (k qv s : String) (hk : k ≠ "") :
    (∀ n : Int, parseInt s = some n →
      weatherCallTool k "get_forecast" { q := some qv, days := some (.str s) } =
        .httpGet "forecast" (some n)) ∧
    (parseInt s = none →
      weatherCallTool k "get_forecast" { q := some qv, days := some (.str s) } =
        .errorPayload (coercionErrorMsg s)) := by
  constructor
  · intro n hn
    simp [weatherCallTool, hk, hn]
  · intro hn
    simp [weatherCallTool, hk, hn]

/-- Witness for `get_forecast_days_coercion` at key "k" and the
string-encoded out-of-range value "20". -/
theorem get_forecast_days_coercion_witness :
    weatherCallTool "k" "get_forecast" { q := some "Rome", days := some (.str "20") } =
      .httpGet "forecast" (some 20) :=
  (get_forecast_days_coercion "k" "Rome" "20" (by decide)).1 20 (by decide)

/-- C3: for every location and budget, `suggest_restaurants` returns at
most 3 entries; it filters the location list by exact price-tier equality
except that budget "€€" keeps every entry; and the location list is the
Milano / Roma table entry or, for any other location, the default list. -/
theorem suggest_restaurants_spec (location budget : String) :
    (suggest_restaurants location budget).length ≤ 3 ∧
    suggest_restaurants location budget =
      (if budget = "€€" then restaurants_for location
       else (restaurants_for location).filter (fun r => r.price == budget)).take 3 ∧
    restaurants_for location =
      (if location = "Milano" then milanoRestaurants
       else if location = "Roma" then romaRestaurants
       else defaultRestaurants) := by
  refine ⟨?_, ?_, ?_⟩
  · simp only [suggest_restaurants]
    exact List.length_take_le _ _
  · by_cases hb : budget = "€€"
    · subst hb
      simp [suggest_restaurants]
    · have eb : (budget == "€€") = false := by simp [hb]
      simp [suggest_restaurants, hb, eb]
  · by_cases h1 : location = "Milano"
    · subst h1; rfl
    · by_cases h2 : location = "Roma"
      · subst h2; rfl
      · by_cases h3 : location = "default"
        · subst h3; rfl
        · have e1 : (location == "Milano") = false := by simp [h1]
          have e2 : (location == "Roma") = false := by simp [h2]
          have e3 : (location == "default") = false := by simp [h3]
          simp [restaurants_for, RESTAURANTS_DB, List.lookup, e1, e2, e3, h1, h2, h3]

/-- C4: textual keywords take precedence over temperature in
`classify_weather`, with English and Italian rain/snow/clear terms matched
case-insensitively: "Heavy rain" is "rain" at every temperature (as is
uppercase Italian "PIOGGIA", and "NEVE" is "snow" at every temperature),
"Clear" at 30 is "hot", "Clear" at 20 is "sunny", "Sereno" at 20 is
"sunny", and keyword-free "Overcast" at 3 is "cold". -/
theorem classify_weather_keywords :
    (∀ t : ℚ, classify_weather ("Heavy rain".toList) t = "rain") ∧
    (∀ t : ℚ, classify_weather ("PIOGGIA in arrivo".toList) t = "rain") ∧
    (∀ t : ℚ, classify_weather ("NEVE".toList) t = "snow") ∧
    (∀ t : ℚ, classify_weather ("Snow showers".toList) t = "snow") ∧
    classify_weather ("Clear".toList) 30 = "hot" ∧
    classify_weather ("Clear".toList) 20 = "sunny" ∧
    classify_weather ("Sereno".toList) 20 = "sunny" ∧
    classify_weather ("Overcast".toList) 3 = "cold" :=
  ⟨fun _ => rfl, fun _ => rfl, fun _ => rfl, fun _ => rfl,
   by decide, by decide, by decide, by decide⟩

/-- C5: `create_itinerary` with 3 activities and 2 restaurants yields
exactly the 5 timeline entries 09:00, 11:00, 13:00, 15:00, 17:00 in
activity/restaurant/activity/restaurant/activity order, followed by the 3
fixed travel tips; determinism holds because the embedding is a pure
function of the argument lists. -/
theorem create_itinerary_three_two (a1 a2 a3 r1 r2 : String) :
    itineraryTimeline [a1, a2, a3] [r1, r2] =
      [("09:00", a1, "activity"), ("11:00", r1, "restaurant"),
       ("13:00", a2, "activity"), ("15:00", r2, "restaurant"),
       ("17:00", a3, "activity")] ∧
    itineraryTips.length = 3 := ⟨rfl, rfl⟩

/-- C6: a tool-result payload strictly longer than 200 characters is
rendered as an inline preview equal to exactly its first 200 characters
followed by the ellipsis "..." (203 characters in all) together with an
out-of-band artifact carrying the full untruncated payload, while a payload
of at most 200 characters is rendered inline in full with no artifact. -/
theorem stream_tool_response_roundtrip (toolName response : List Char)
    (h : 200 < response.length) :
    (stream_tool_response toolName response).inline = response.take 200 ++ ("...".toList) ∧
    ((stream_tool_response toolName response).inline).length = 203 ∧
    (stream_tool_response toolName response).artifact = some response ∧
    (∀ short : List Char, short.length ≤ 200 →
      (stream_tool_response toolName short).inline = short ∧
      (stream_tool_response toolName short).artifact = none) := by
  refine ⟨by simp [stream_tool_response, h], ?_, by simp [stream_tool_response, h], ?_⟩
  · simp [stream_tool_response, h]
    omega
  · intro short hs
    have hlt : ¬(200 < short.length) := by omega
    simp [stream_tool_response, hlt]

/-- Witness for `stream_tool_response_roundtrip` on a 201-character
payload. -/
theorem stream_tool_response_roundtrip_witness :
    (stream_tool_response ("get_forecast".toList) (List.replicate 201 'x')).artifact =
      some (List.replicate 201 'x') :=
  (stream_tool_response_roundtrip ("get_forecast".toList) (List.replicate 201 'x')
    (by simp only [List.length_replicate]; omega)).2.2.1

/-- C7: when the weather API key is missing or empty, every tool
invocation — whatever the tool name and arguments — returns the one
explanatory credential error payload, and no outbound HTTP request is
issued; the call returns normally rather than crashing. -/
theorem weather_credential_short_circuit (env : Option String)
    (h : env = none ∨ env = some "") (name : String) (args : WeatherArgs) :
    weatherCallTool (apiKeyOf env) name args = .credentialError credentialMissingMsg ∧
    ∀ endpoint d, weatherCallTool (apiKeyOf env) name args ≠ .httpGet endpoint d := by
  have hk : apiKeyOf env = "" := by rcases h with h | h <;> subst h <;> rfl
  rw [hk]
  constructor
  · simp [weatherCallTool]
  · intro e d
    simp [weatherCallTool]

/-- Witness for `weather_credential_short_circuit` with an unset
environment variable and the `get_forecast` tool. -/
theorem weather_credential_short_circuit_witness :
    weatherCallTool (apiKeyOf none) "get_forecast" {} =
      .credentialError credentialMissingMsg :=
  (weather_credential_short_circuit none (Or.inl rfl) "get_forecast" {}).1

/-- C8: a turn whose transcript holds the user message, two tool calls each
followed by its tool result, and a final answer persists a turn record
whose tools_used field is exactly the two tool names in call order (and
whose assistant field is the final answer). -/
theorem turn_tools_used_two_calls (ts u n1 n2 r1 r2 final : String)
    (hfinal : final ≠ "") :
    (mkTurn ts u
      [.human u, .ai "" [⟨some n1⟩], .tool n1 r1,
       .ai "" [⟨some n2⟩], .tool n2 r2, .ai final []]).tools_used = [n1, n2] ∧
    (mkTurn ts u
      [.human u, .ai "" [⟨some n1⟩], .tool n1 r1,
       .ai "" [⟨some n2⟩], .tool n2 r2, .ai final []]).assistant = final := by
  constructor <;> simp [mkTurn, walkTranscript, walkStep, hfinal]

/-- Witness for `turn_tools_used_two_calls` on a concrete two-call
transcript. -/
theorem turn_tools_used_two_calls_witness :
    (mkTurn "2026-10-12T00:00:00" "meteo Milano"
      [.human "meteo Milano", .ai "" [⟨some "get_current_weather"⟩],
       .tool "get_current_weather" "res1", .ai "" [⟨some "suggest_activities"⟩],
       .tool "suggest_activities" "res2", .ai "Ecco il meteo" []]).tools_used =
      ["get_current_weather", "suggest_activities"] :=
  (turn_tools_used_two_calls "2026-10-12T00:00:00" "meteo Milano"
    "get_current_weather" "suggest_activities" "res1" "res2" "Ecco il meteo"
    (by decide)).1

/-- C9: in the weather tool server the credential check precedes tool-name
dispatch — with an empty key every name (registered or not) yields the
credential error and never the unknown-tool payload, while with a
credential present an unregistered name yields the unknown-tool payload. -/
theorem weather_credential_before_dispatch (k name : String) (args : WeatherArgs) :
    weatherCallTool "" name args = .credentialError credentialMissingMsg ∧
    (k ≠ "" → name ∉ weatherToolNames →
      weatherCallTool k name args = .unknownTool ("Strumento sconosciuto: " ++ name)) ∧
    (∀ m, weatherCallTool "" name args ≠ .unknownTool m) := by
  refine ⟨by simp [weatherCallTool], ?_, by intro m; simp [weatherCallTool]⟩
  intro hk hn
  simp only [weatherToolNames, List.mem_cons, List.mem_singleton, not_or] at hn
  obtain ⟨h1, h2, h3, h4, h5⟩ := hn
  simp [weatherCallTool, hk, h1, h2, h3, h4, h5]

/-- Witness for `weather_credential_before_dispatch`: with a credential
present, an unregistered tool name reaches the unknown-tool branch. -/
theorem weather_credential_before_dispatch_witness :
    weatherCallTool "k" "frobnicate" {} =
      .unknownTool ("Strumento sconosciuto: " ++ "frobnicate") :=
  (weather_credential_before_dispatch "k" "frobnicate" {}).2.1 (by decide) (by decide)

/-- Helper for C10: from loop index i on, the number of restaurant entries
`buildTimeline` emits is the smaller of the remaining activity count and
the restaurant indices not yet consumed. -/
theorem buildTimeline_count (as : List String) : ∀ (rs : List String) (i : Nat),
    restaurantEntryCount (buildTimeline i as rs) = min as.length (rs.length - i) := by
  induction as with
  | nil => intro rs i; simp [buildTimeline, restaurantEntryCount]
  | cons a as ih =>
    intro rs i
    by_cases h : i < rs.length
    · simp only [buildTimeline, h, if_true]
      simp only [restaurantEntryCount, List.filter] at *
      simp [ih rs (i + 1)]
      omega
    · simp only [buildTimeline, h, if_false]
      simp only [restaurantEntryCount, List.filter] at *
      simp [ih rs (i + 1)]
      omega

/-- C10: for every call, the number of restaurant entries in the produced
timeline is min(|restaurants|, min(|activities|, 3)) — a restaurant at
index i is placed only when activity index i exists — and in particular 1
activity with 3 restaurants yields exactly the 2-entry timeline with the
last 2 restaurants dropped. -/
theorem itinerary_restaurant_pairing (activities restaurants : List String) :
    restaurantEntryCount (itineraryTimeline activities restaurants) =
      min restaurants.length (min activities.length 3) ∧
    itineraryTimeline ["Duomo"] ["R1", "R2", "R3"] =
      [("09:00", "Duomo", "activity"), ("11:00", "R1", "restaurant")] := by
  constructor
  · have h := buildTimeline_count (activities.take 3) restaurants 0
    rw [itineraryTimeline, h, List.length_take]
    omega
  · rfl
